import Mathlib

/-!
Shallow embedding of the EasyBuckets backend (Node/Express/Mongoose) auth and
reporting logic, together with proofs of the specified properties.

Sources embedded:
* `src/Web/Backend/src/utils/errorHandler.js`  — error taxonomy and status codes
* `src/Web/Backend/src/models/User.js`         — user record, lockout counters,
  refresh-token list methods
* `src/Web/Backend/src/services/authService.js`— register / login / refreshToken /
  changePassword flows
* middleware `authenticate`                    — bearer-token request authentication
  (including the password-staleness check)
* `Donation` model statics                     — getLeaderboard / getStats
* `Testimonial` model statics and `TestimonialService.featureTestimonial`

Times are modelled as natural numbers (milliseconds since epoch).  The bcrypt
hash of a password is modelled by the password string itself: `bcrypt.compare`
over the hash is equality of the underlying plaintext.
-/

namespace EasyBuckets

/-- Error taxonomy of `src/Web/Backend/src/utils/errorHandler.js`:
each class carries a message; `appError` carries an explicit status code
(as `new AppError(message, statusCode)` does in the JS source). -/
inductive AppErr where
  | validationError (msg : String)
  | authError (msg : String)
  | authorizationError (msg : String)
  | notFoundError (msg : String)
  | conflictError (msg : String)
  | appError (msg : String) (code : Nat)
deriving DecidableEq

/-- HTTP status code attached by each error-class constructor in
`errorHandler.js` (`ValidationError` 400, `AuthError` 401,
`AuthorizationError` 403, `NotFoundError` 404, `ConflictError` 409;
a raw `AppError` keeps the code it was given). -/
def AppErr.statusCode : AppErr → Nat
  | .validationError _ => 400
  | .authError _ => 401
  | .authorizationError _ => 403
  | .notFoundError _ => 404
  | .conflictError _ => 409
  | .appError _ c => c

/-- Modelled from the spec: `config/jwt.js` (the Token Service) is not under
`src/`.  Per spec §4.1 an access token embeds the claims `{id, email, role}`
and its issue time; the signed string is determined by these claims. -/
structure AccessToken where
  id : String
  email : String
  role : String
  iat : Nat
deriving DecidableEq

/-- Modelled from the spec: `config/jwt.js` is not under `src/`.  A refresh
token carries the claims `{id}` plus issue time, and is tagged with the
"refresh" type marker (represented here by the type itself). -/
structure RefreshTok where
  id : String
  iat : Nat
deriving DecidableEq

/-- Token pair returned by `jwtManager.generateTokenPair`. -/
structure TokenPair where
  accessToken : AccessToken
  refreshToken : RefreshTok
deriving DecidableEq

/-- Refresh-token lifetime: spec §4.1 default 7 days (`604800` seconds in the
schema's TTL), in milliseconds. -/
def refreshExpiresMs : Nat := 7 * 24 * 60 * 60 * 1000

/-- Access-token lifetime: spec §4.1 default 24 h, in milliseconds. -/
def accessExpiresMs : Nat := 24 * 60 * 60 * 1000

/-- Lock duration from `User.js` `incLoginAttempts`: 2 hours in ms. -/
def lockTimeMs : Nat := 2 * 60 * 60 * 1000

/-- Lockout threshold from `User.js` `incLoginAttempts`: 5 failed attempts. -/
def maxLoginAttempts : Nat := 5

/-- One element of `userSchema.refreshTokens`: `{ token, createdAt }`. -/
structure RefreshRecord where
  token : RefreshTok
  createdAt : Nat
deriving DecidableEq

/-- User record per `userSchema` in `src/Web/Backend/src/models/User.js`.
`password` holds the plaintext the stored bcrypt hash verifies. -/
structure User where
  id : String
  name : String
  email : String
  password : String
  role : String := "user"
  isActive : Bool := true
  isVerified : Bool := false
  refreshTokens : List RefreshRecord := []
  lastLogin : Option Nat := none
  loginAttempts : Nat := 0
  lockUntil : Option Nat := none
  passwordChangedAt : Nat := 0
deriving DecidableEq

/-- Virtual `isLocked` (`User.js`): `!!(this.lockUntil && this.lockUntil > Date.now())`. -/
def User.isLocked (u : User) (now : Nat) : Bool :=
  match u.lockUntil with
  | some t => decide (now < t)
  | none => false

/-- First guard of `incLoginAttempts`: `this.lockUntil && this.lockUntil < Date.now()`. -/
def User.hasExpiredLock (u : User) (now : Nat) : Bool :=
  match u.lockUntil with
  | some t => decide (t < now)
  | none => false

/-- `userSchema.methods.incLoginAttempts` (`User.js`): on an expired lock,
restart the counter at 1 and unset the lock; otherwise increment, and set
`lockUntil = now + 2h` when the count reaches 5 on an unlocked account. -/
def User.incLoginAttempts (u : User) (now : Nat) : User :=
  if u.hasExpiredLock now then
    { u with lockUntil := none, loginAttempts := 1 }
  else
    let u' := { u with loginAttempts := u.loginAttempts + 1 }
    if u.loginAttempts + 1 ≥ maxLoginAttempts && !(u.isLocked now) then
      { u' with lockUntil := some (now + lockTimeMs) }
    else u'

/-- `userSchema.methods.resetLoginAttempts`: `$unset` both counters. -/
def User.resetLoginAttempts (u : User) : User :=
  { u with loginAttempts := 0, lockUntil := none }

/-- `userSchema.methods.comparePassword` via `bcrypt.compare`. -/
def User.comparePassword (u : User) (candidate : String) : Bool :=
  decide (candidate = u.password)

/-- `userSchema.methods.addRefreshToken`: push `{ token, createdAt := now }`. -/
def User.addRefreshToken (u : User) (t : RefreshTok) (now : Nat) : User :=
  { u with refreshTokens := u.refreshTokens ++ [⟨t, now⟩] }

/-- `userSchema.methods.removeRefreshToken`: keep records whose token differs. -/
def User.removeRefreshToken (u : User) (t : RefreshTok) : User :=
  { u with refreshTokens := u.refreshTokens.filter (fun r => !(decide (r.token = t))) }

/-- `userSchema.statics.findByEmail` / `findOne({email: email.toLowerCase()})`. -/
def findByEmail (store : List User) (email : String) : Option User :=
  store.find? (fun u => decide (u.email = email.toLower))

/-- `User.findById`. -/
def findById (store : List User) (id : String) : Option User :=
  store.find? (fun u => decide (u.id = id))

/-- Persisting a user document (`user.save()` / `updateOne` by `_id`). -/
def updateById (store : List User) (id : String) (u' : User) : List User :=
  store.map (fun v => if v.id = id then u' else v)

/-- `jwtManager.generateTokenPair(user)`.  Modelled from the spec (§4.1):
access claims `{id, email, role}`, refresh claims `{id}`, both issued `now`. -/
def generateTokenPair (u : User) (now : Nat) : TokenPair :=
  { accessToken := ⟨u.id, u.email, u.role, now⟩, refreshToken := ⟨u.id, now⟩ }

/-- `jwtManager.verifyRefreshToken`.  Modelled from the spec (§4.1): a
well-typed refresh token verifies unless expired (7-day lifetime); returns
the decoded `id` claim. -/
def verifyRefreshTok (rt : RefreshTok) (now : Nat) : Except AppErr String :=
  if now < rt.iat + refreshExpiresMs then .ok rt.id
  else .error (.authError "Token has expired. Please log in again")

/-- `jwtManager.verifyAccessToken`.  Modelled from the spec (§4.1): a
well-typed access token verifies unless expired (24-hour lifetime). -/
def verifyAccessTok (t : AccessToken) (now : Nat) : Except AppErr AccessToken :=
  if now < t.iat + accessExpiresMs then .ok t
  else .error (.appError "Token has expired" 401)

namespace AuthService

/-- `AuthService.register` (`authService.js`): conflict when the email is
already registered, else create the user (lower-cased, trimmed email),
issue a token pair and persist the refresh token. -/
def register (store : List User) (name email password newId : String) (now : Nat) :
    List User × Except AppErr (User × TokenPair) :=
  match findByEmail store email with
  | some _ => (store, .error (.conflictError "Email is already registered"))
  | none =>
    let u : User :=
      { id := newId, name := name.trim, email := email.toLower.trim,
        password := password, passwordChangedAt := now }
    let tokens := generateTokenPair u now
    let u' := u.addRefreshToken tokens.refreshToken now
    (store ++ [u'], .ok (u', tokens))

/-- `AuthService.login` (`authService.js`): absent user → `AuthError`; locked →
`AuthError` (the locked message); inactive → `AuthError`; wrong password →
increment attempts (persisted!) and `AuthError`; success → reset counters when
positive, stamp `lastLogin`, issue and persist a new token pair. -/
def login (store : List User) (email password : String) (now : Nat) :
    List User × Except AppErr (User × TokenPair) :=
  match findByEmail store email with
  | none => (store, .error (.authError "Invalid email or password"))
  | some u =>
    if u.isLocked now then
      (store, .error (.authError "Account is temporarily locked. Please try again later"))
    else if !u.isActive then
      (store, .error (.authError "Account is deactivated"))
    else if !(u.comparePassword password) then
      let u' := u.incLoginAttempts now
      (updateById store u.id u', .error (.authError "Invalid email or password"))
    else
      let u1 := if u.loginAttempts > 0 then u.resetLoginAttempts else u
      let u2 := { u1 with lastLogin := some now }
      let tokens := generateTokenPair u2 now
      let u3 := u2.addRefreshToken tokens.refreshToken now
      (updateById store u.id u3, .ok (u3, tokens))

/-- `AuthService.refreshToken` (`authService.js`): verify the refresh token,
load the user, require the presented token among the stored live tokens,
then rotate — remove the consumed token, persist a fresh pair. -/
def refreshToken (store : List User) (rt : RefreshTok) (now : Nat) :
    List User × Except AppErr TokenPair :=
  match verifyRefreshTok rt now with
  | .error e => (store, .error e)
  | .ok decodedId =>
    match findById store decodedId with
    | none => (store, .error (.authError "User not found"))
    | some u =>
      match u.refreshTokens.find? (fun r => decide (r.token = rt)) with
      | none => (store, .error (.authError "Invalid refresh token"))
      | some _ =>
        let tokens := generateTokenPair u now
        let u1 := u.removeRefreshToken rt
        let u2 := u1.addRefreshToken tokens.refreshToken now
        (updateById store u.id u2, .ok tokens)

/-- `AuthService.changePassword` (`authService.js`): wrong current password →
`AuthError`; new equal to current → `ValidationError`; else replace the hash,
bump `passwordChangedAt`, clear all refresh tokens. -/
def changePassword (store : List User) (userId current newPw : String) (now : Nat) :
    List User × Except AppErr User :=
  match findById store userId with
  | none => (store, .error (.authError "User not found"))
  | some u =>
    if !(u.comparePassword current) then
      (store, .error (.authError "Current password is incorrect"))
    else if u.comparePassword newPw then
      (store, .error (.validationError "New password must be different from current password"))
    else
      let u' := { u with password := newPw, passwordChangedAt := now, refreshTokens := [] }
      (updateById store u.id u', .ok u')

end AuthService

/-- `authenticate` middleware: verify the bearer access token, require the
user to exist, be active and unlocked, and reject tokens issued before
`passwordChangedAt` ("Password recently changed", 401). -/
def authenticate (store : List User) (tok : AccessToken) (now : Nat) :
    Except AppErr User :=
  match verifyAccessTok tok now with
  | .error e => .error e
  | .ok d =>
    match findById store d.id with
    | none => .error (.appError "User no longer exists" 401)
    | some u =>
      if !u.isActive then .error (.appError "Account is deactivated" 401)
      else if u.isLocked now then .error (.appError "Account is temporarily locked" 423)
      else if tok.iat < u.passwordChangedAt then
        .error (.appError "Password recently changed. Please log in again" 401)
      else .ok u

/-- `status` enum of `donationSchema`. -/
inductive DStatus where
  | pending
  | completed
  | failed
  | refunded
deriving DecidableEq

/-- Boolean test for `status: 'completed'` match stages. -/
def DStatus.isCompleted : DStatus → Bool
  | .completed => true
  | _ => false

/-- Donation record (the `donationSchema` fields the aggregations read).
Amounts are exact rationals standing for the JS numeric amounts. -/
structure Donation where
  donorName : String
  donorEmail : String
  amount : ℚ
  isAnonymous : Bool
  status : DStatus
  createdAt : Nat
deriving DecidableEq

/-- `$match: { status: 'completed', isAnonymous: false }` of `getLeaderboard`. -/
def completedPublic (ds : List Donation) : List Donation :=
  ds.filter (fun d => d.status.isCompleted && !d.isAnonymous)

/-- One output row of `donationSchema.statics.getLeaderboard` after the
`$project` stage. -/
structure LBEntry where
  donorEmail : String
  donorName : String
  totalAmount : ℚ
  donationCount : Nat
  lastDonation : Nat
deriving DecidableEq

/-- The donations of one `$group` key (`_id: '$donorEmail'`). -/
def donationsOf (ds : List Donation) (email : String) : List Donation :=
  ds.filter (fun d => decide (d.donorEmail = email))

/-- One `$group` accumulator row of `getLeaderboard`: `$first` donor name,
`$sum` amount, `$sum: 1` count, `$max` created date. -/
def entryFor (ds : List Donation) (email : String) : LBEntry :=
  let mine := donationsOf ds email
  { donorEmail := email
    donorName := (mine.head?.elim "" (·.donorName))
    totalAmount := (mine.map (·.amount)).sum
    donationCount := mine.length
    lastDonation := (mine.map (·.createdAt)).foldl max 0 }

/-- `$sort: { totalAmount: -1 }` order. -/
def lbRel (a b : LBEntry) : Prop := b.totalAmount ≤ a.totalAmount

instance : DecidableRel lbRel := fun a b =>
  (inferInstance : Decidable (b.totalAmount ≤ a.totalAmount))

instance : IsTotal LBEntry lbRel := ⟨fun a b => le_total b.totalAmount a.totalAmount⟩

instance : IsTrans LBEntry lbRel := ⟨fun _ _ _ h1 h2 => le_trans h2 h1⟩

/-- `donationSchema.statics.getLeaderboard(limit)`: filter to completed,
non-anonymous donations, group by donor email, sort by total amount
descending, truncate to `limit`. -/
def getLeaderboard (ds : List Donation) (limit : Nat) : List LBEntry :=
  (List.insertionSort lbRel
    (((completedPublic ds).map (·.donorEmail)).dedup.map (entryFor (completedPublic ds)))).take
    limit

/-- Result record of `donationSchema.statics.getStats`. -/
structure DStats where
  totalAmount : ℚ
  totalDonations : Nat
  averageAmount : ℚ
  maxAmount : ℚ
  minAmount : ℚ
deriving DecidableEq

/-- `donationSchema.statics.getStats()`: `$match` completed then one `$group`
with sum/count/avg/max/min; the JS falls back to the zero-filled record when
the aggregation yields no row (no completed donations). -/
def getStats (ds : List Donation) : DStats :=
  match ds.filter (fun d => d.status.isCompleted) with
  | [] => ⟨0, 0, 0, 0, 0⟩
  | d :: rest =>
    { totalAmount := ((d :: rest).map (·.amount)).sum
      totalDonations := (d :: rest).length
      averageAmount := ((d :: rest).map (·.amount)).sum / (((d :: rest).length : ℕ) : ℚ)
      maxAmount := ((d :: rest).map (·.amount)).foldl max d.amount
      minAmount := ((d :: rest).map (·.amount)).foldl min d.amount }

/-- Testimonial record (the `testimonialSchema` fields the claims read). -/
structure Testimonial where
  id : String
  name : String
  rating : Nat
  isApproved : Bool := false
  isFeatured : Bool := false
  isVisible : Bool := true
deriving DecidableEq

/-- `Testimonial.findById`. -/
def findTestimonial (store : List Testimonial) (tid : String) : Option Testimonial :=
  store.find? (fun t => decide (t.id = tid))

/-- Persisting the `findByIdAndUpdate` write by document id. -/
def updateTestimonialById (store : List Testimonial) (tid : String) (t' : Testimonial) :
    List Testimonial :=
  store.map (fun t => if t.id = tid then t' else t)

/-- `TestimonialService.featureTestimonial` (`featured` defaults to true in JS):
`findByIdAndUpdate` persists `isFeatured := featured` first, then the service
checks approval and throws `ValidationError` when featuring an unapproved
testimonial — after the write has already been persisted. -/
def featureTestimonial (store : List Testimonial) (tid : String) (featured : Bool) :
    List Testimonial × Except AppErr Testimonial :=
  match findTestimonial store tid with
  | none => (store, .error (.notFoundError "Testimonial not found"))
  | some t =>
    let t' := { t with isFeatured := featured }
    let store' := updateTestimonialById store tid t'
    if featured && !t'.isApproved then
      (store', .error (.validationError "Only approved testimonials can be featured"))
    else
      (store', .ok t')

/-- `$match: { isApproved: true, isVisible: true }` of `getRatingStats`. -/
def approvedVisible (ts : List Testimonial) : List Testimonial :=
  ts.filter (fun t => t.isApproved && t.isVisible)

/-- Result record of `testimonialSchema.statics.getRatingStats` (the
`ratingCounts` object flattened to five fields, stars 5 down to 1). -/
structure RatingStats where
  totalReviews : Nat
  averageRating : ℚ
  count5 : Nat
  count4 : Nat
  count3 : Nat
  count2 : Nat
  count1 : Nat
deriving DecidableEq

/-- MongoDB `$round` rounds halves to the nearest even integer. -/
def roundHalfEven (x : ℚ) : ℤ :=
  if x - ⌊x⌋ < 1/2 then ⌊x⌋
  else if (1/2 : ℚ) < x - ⌊x⌋ then ⌊x⌋ + 1
  else if ⌊x⌋ % 2 = 0 then ⌊x⌋ else ⌊x⌋ + 1

/-- `$round: [expr, 2]` — round to 2 decimal places. -/
def round2 (x : ℚ) : ℚ := (roundHalfEven (x * 100) : ℚ) / 100

/-- `$size`/`$filter` count of one star value in the pushed rating list. -/
def countRating (l : List Testimonial) (r : Nat) : Nat :=
  (l.filter (fun t => decide (t.rating = r))).length

/-- `testimonialSchema.statics.getRatingStats()`: `$match` approved+visible,
`$group` (count, `$avg` rating, `$push` ratings), `$project` rounding the
average to 2 decimals and counting each star; zero-filled fallback when the
aggregation yields no row. -/
def getRatingStats (ts : List Testimonial) : RatingStats :=
  match approvedVisible ts with
  | [] => ⟨0, 0, 0, 0, 0, 0, 0⟩
  | _ :: _ =>
    { totalReviews := (approvedVisible ts).length
      averageRating :=
        round2 ((((approvedVisible ts).map (fun t => (t.rating : ℚ))).sum) /
          (((approvedVisible ts).length : ℕ) : ℚ))
      count5 := countRating (approvedVisible ts) 5
      count4 := countRating (approvedVisible ts) 4
      count3 := countRating (approvedVisible ts) 3
      count2 := countRating (approvedVisible ts) 2
      count1 := countRating (approvedVisible ts) 1 }

/-- Concrete user holding one live refresh token (used in witness theorems). -/
def uTok : User :=
  { id := "u1", name := "N", email := "e@x", password := "pw",
    refreshTokens := [⟨⟨"u1", 5⟩, 5⟩] }

/-- Concrete fresh account; the stored email is kept as a `toLower` term so
that login's case-insensitive lookup is definitional (used in witness theorems). -/
def uFresh : User :=
  { id := "u2", name := "N", email := ("e@x" : String).toLower, password := "pw" }

/-- Concrete user with an already-expired lock and a saturated attempt counter. -/
def uExpiredLock : User :=
  { id := "u10", name := "N", email := ("e@x" : String).toLower, password := "pw",
    loginAttempts := 5, lockUntil := some 100 }

/-- Concrete user whose lock is still in force at time 50. -/
def uLocked : User :=
  { id := "u4", name := "N", email := ("e@x" : String).toLower, password := "pw",
    lockUntil := some 100 }

/-- Concrete registered user for the duplicate-registration witness. -/
def uReg : User :=
  { id := "u7", name := "N", email := ("A@b" : String).toLower, password := "pw" }

/-- Concrete user for the change-password witness: one live refresh token,
password last changed at time 10. -/
def uChg : User :=
  { id := "u3", name := "N", email := "e@x", password := "pw",
    refreshTokens := [⟨⟨"u3", 7⟩, 7⟩], passwordChangedAt := 10 }

/-- Concrete unapproved, unfeatured testimonial. -/
def tUnapproved : Testimonial := { id := "t1", name := "N", rating := 4 }

deriving instance DecidableEq for Except

/-! ## Theorems -/

/-- `isCompleted` detects exactly the `completed` status. -/
theorem DStatus.isCompleted_iff (s : DStatus) :
    s.isCompleted = true ↔ s = DStatus.completed := by
  cases s <;> simp [DStatus.isCompleted]

/-- Looking an id up after the persisted write of that id returns the written
document, provided some document with the id existed and the write keeps it. -/
theorem findById_updateById {store : List User} {i : String} {v : User}
    (h : (findById store i).isSome) (hv : v.id = i) :
    findById (updateById store i v) i = some v := by
  induction store with
  | nil => simp [findById] at h
  | cons a l ih =>
    by_cases ha : a.id = i
    · simp [findById, updateById, ha, hv]
    · have h' : (findById l i).isSome := by
        simpa [findById, List.find?_cons, ha] using h
      simpa [findById, updateById, ha] using ih h'

/-- A token absent from the stored list is not found by the rotation lookup. -/
theorem find?_token_none {l : List RefreshRecord} {rt : RefreshTok}
    (h : rt ∉ l.map RefreshRecord.token) :
    l.find? (fun r => decide (r.token = rt)) = none := by
  refine List.find?_eq_none.2 fun a ha => ?_
  simp only [decide_eq_true_eq]
  exact fun he => h (he ▸ List.mem_map_of_mem RefreshRecord.token ha)

/-- A token present in the stored list is found by the rotation lookup. -/
theorem find?_token_some {l : List RefreshRecord} {rt : RefreshTok}
    (h : rt ∈ l.map RefreshRecord.token) :
    ∃ r, l.find? (fun r => decide (r.token = rt)) = some r := by
  obtain ⟨r, hr, hrt⟩ := List.mem_map.1 h
  exact Option.isSome_iff_exists.mp
    (List.find?_isSome.2 ⟨r, hr, by simp [hrt]⟩)

/-- Claim C7: a second registration with an already-registered email (compared
case-insensitively) fails with `Conflict` (409) and leaves the store unchanged:
no second user record is created. -/
theorem register_duplicate_email_conflict
    (store : List User) (u : User) (n e2 p newId : String) (now : Nat)
    (hu : u ∈ store) (he : u.email = e2.toLower) :
    AuthService.register store n e2 p newId now =
      (store, .error (.conflictError "Email is already registered")) ∧
    (AppErr.conflictError "Email is already registered").statusCode = 409 := by
  have hs : (store.find? (fun v => decide (v.email = e2.toLower))).isSome :=
    List.find?_isSome.2 ⟨u, hu, by simp [he]⟩
  obtain ⟨v, hv⟩ := Option.isSome_iff_exists.mp hs
  exact ⟨by simp [AuthService.register, findByEmail, hv], rfl⟩

/-- Claim C7 witness: registering `"A@b"` over the store that already holds a
user with that email yields the conflict error. -/
theorem register_duplicate_email_conflict_witness :
    AuthService.register [uReg] "M" "A@b" "pw2" "u8" 99 =
      ([uReg], .error (.conflictError "Email is already registered")) ∧
    (AppErr.conflictError "Email is already registered").statusCode = 409 :=
  register_duplicate_email_conflict [uReg] uReg "M" "A@b" "pw2" "u8" 99 (by simp) rfl

/-- Claim C10: when the stored lock has already expired, the next failed login
restarts the attempt counter at exactly 1 and clears `lockUntil` — it does not
increment the stale counter or re-lock. -/
theorem login_expired_lock_restarts_counter
    (u : User) (e w : String) (texp now : Nat)
    (he : u.email = e.toLower) (ha : u.isActive = true)
    (hl : u.lockUntil = some texp) (hexp : texp < now)
    (hw : w ≠ u.password) :
    AuthService.login [u] e w now =
      ([{ u with loginAttempts := 1, lockUntil := none }],
       .error (.authError "Invalid email or password")) := by
  have h1 : u.isLocked now = false := by
    simp only [User.isLocked, hl, decide_eq_false_iff_not]
    omega
  have h2 : u.hasExpiredLock now = true := by
    simp [User.hasExpiredLock, hl, hexp]
  simp [AuthService.login, findByEmail, he, h1, ha, User.comparePassword, hw,
    User.incLoginAttempts, h2, updateById]

/-- Claim C10 witness: a user with `loginAttempts = 5` and a lock expired at
time 100 fails a login at time 200 with the counter restarted at 1. -/
theorem login_expired_lock_restarts_counter_witness :
    AuthService.login [uExpiredLock] "e@x" "bad" 200 =
      ([{ uExpiredLock with loginAttempts := 1, lockUntil := none }],
       .error (.authError "Invalid email or password")) :=
  login_expired_lock_restarts_counter uExpiredLock "e@x" "bad" 100 200 rfl rfl rfl
    (by decide) (by decide)

/-- Claim C5 (code bug exhibited): `featureTestimonial` on an unapproved
testimonial does raise `ValidationError`, but the `findByIdAndUpdate` write has
already persisted `isFeatured := true`, so the failed call leaves the store
with a featured-yet-unapproved testimonial: the invariant is violated. -/
theorem feature_unapproved_persists_flag :
    featureTestimonial [tUnapproved] "t1" true =
      ([{ tUnapproved with isFeatured := true }],
       .error (.validationError "Only approved testimonials can be featured")) ∧
    ({ tUnapproved with isFeatured := true } : Testimonial).isFeatured = true ∧
    ({ tUnapproved with isFeatured := true } : Testimonial).isApproved = false := by
  refine ⟨?_, rfl, rfl⟩
  decide

/-- Claim C4 counterexample: a login against a locked account (lock until 100,
attempted at 50, correct password) fails with `AuthError`, whose status code
is 401 — not the claimed 423.  `errorHandler.js` has no 423-status error
class; the login service throws `AuthError` for the locked branch. -/
theorem login_locked_status_counterexample :
    (AuthService.login [uLocked] "e@x" "pw" 50).2 =
      .error (.authError "Account is temporarily locked. Please try again later") ∧
    (AppErr.authError "Account is temporarily locked. Please try again later").statusCode
      = 401 ∧
    ¬ ((AppErr.authError
        "Account is temporarily locked. Please try again later").statusCode = 423) := by
  refine ⟨?_, rfl, by decide⟩
  simp [AuthService.login, findByEmail, uLocked, User.isLocked]

/-- Claim C4 (amended): a login against a locked account fails with the
`AuthError` "Account is temporarily locked. Please try again later", surfaced
as HTTP 401 — the same status class as `AuthFailed`/`TokenInvalid`; HTTP 423 is
emitted only by the `authenticate` request middleware when a locked user
presents an access token. -/
theorem login_locked_unauthorized
    (store : List User) (u : User) (e p : String) (now : Nat)
    (hfound : findByEmail store e = some u)
    (hl : u.isLocked now = true) :
    AuthService.login store e p now =
      (store, .error (.authError "Account is temporarily locked. Please try again later")) ∧
    (AppErr.authError "Account is temporarily locked. Please try again later").statusCode
      = 401 ∧
    (∀ (tok : AccessToken) (now' : Nat),
      now' < tok.iat + accessExpiresMs →
      findById store tok.id = some u →
      u.isActive = true →
      u.isLocked now' = true →
      authenticate store tok now' = .error (.appError "Account is temporarily locked" 423)) := by
  refine ⟨by simp [AuthService.login, hfound, hl], rfl, ?_⟩
  intro tok now' hv hf hact hlk
  simp [authenticate, verifyAccessTok, hv, hf, hact, hlk]

/-- Claim C4 witness: the amended statement instantiated on a concrete locked
user, both for login (401) and for the middleware (423). -/
theorem login_locked_unauthorized_witness :
    AuthService.login [uLocked] "e@x" "pw" 50 =
      ([uLocked],
       .error (.authError "Account is temporarily locked. Please try again later")) ∧
    authenticate [uLocked] ⟨"u4", "e@x", "user", 10⟩ 50 =
      .error (.appError "Account is temporarily locked" 423) := by
  have h := login_locked_unauthorized [uLocked] uLocked "e@x" "pw" 50
    (by simp [findByEmail, uLocked]) (by decide)
  exact ⟨h.1, h.2.2 ⟨"u4", "e@x", "user", 10⟩ 50 (by decide) rfl rfl (by decide)⟩

/-- Claim C1: refresh-token rotation is single-use.  For a refresh token `rt`
stored live in the user's token list (issued before `now1`, unexpired at both
call times), the first `refreshToken` call returns the freshly generated pair,
the persisted user record has `rt` removed and the new refresh token added,
and a second call presenting `rt` fails with the `TokenInvalid` error
"Invalid refresh token". -/
theorem refresh_rotation_single_use
    (store : List User) (u : User) (rt : RefreshTok) (now1 now2 : Nat)
    (hfind : findById store rt.id = some u)
    (hmem : rt ∈ u.refreshTokens.map RefreshRecord.token)
    (hiat : rt.iat < now1)
    (hlive1 : now1 < rt.iat + refreshExpiresMs)
    (hlive2 : now2 < rt.iat + refreshExpiresMs) :
    (AuthService.refreshToken store rt now1).2 = .ok (generateTokenPair u now1) ∧
    findById (AuthService.refreshToken store rt now1).1 rt.id =
      some ((u.removeRefreshToken rt).addRefreshToken
        (generateTokenPair u now1).refreshToken now1) ∧
    rt ∉ ((u.removeRefreshToken rt).addRefreshToken
        (generateTokenPair u now1).refreshToken now1).refreshTokens.map RefreshRecord.token ∧
    (generateTokenPair u now1).refreshToken ∈
      ((u.removeRefreshToken rt).addRefreshToken
        (generateTokenPair u now1).refreshToken now1).refreshTokens.map RefreshRecord.token ∧
    (AuthService.refreshToken (AuthService.refreshToken store rt now1).1 rt now2).2 =
      .error (.authError "Invalid refresh token") := by
  obtain ⟨r0, hr0⟩ := find?_token_some hmem
  have hid : u.id = rt.id := by
    have := List.find?_some hfind
    simpa using this
  have hstep : AuthService.refreshToken store rt now1 =
      (updateById store u.id
        ((u.removeRefreshToken rt).addRefreshToken (generateTokenPair u now1).refreshToken now1),
       .ok (generateTokenPair u now1)) := by
    simp [AuthService.refreshToken, verifyRefreshTok, hlive1, hfind, hr0]
  have hid2 : ((u.removeRefreshToken rt).addRefreshToken
      (generateTokenPair u now1).refreshToken now1).id = rt.id := by
    simp [User.removeRefreshToken, User.addRefreshToken, hid]
  have hsome : (findById store rt.id).isSome := by rw [hfind]; rfl
  have hfind2 : findById (AuthService.refreshToken store rt now1).1 rt.id =
      some ((u.removeRefreshToken rt).addRefreshToken
        (generateTokenPair u now1).refreshToken now1) := by
    rw [hstep]
    simpa [hid] using findById_updateById (i := rt.id) hsome hid2
  have hnot : rt ∉ ((u.removeRefreshToken rt).addRefreshToken
      (generateTokenPair u now1).refreshToken now1).refreshTokens.map RefreshRecord.token := by
    intro hmem2
    simp only [User.removeRefreshToken, User.addRefreshToken, generateTokenPair,
      List.map_append, List.mem_append, List.map_cons, List.map_nil,
      List.mem_singleton, List.mem_map, List.mem_filter] at hmem2
    rcases hmem2 with ⟨r, ⟨_, hkeep⟩, htok⟩ | hnew
    · simp only [Bool.not_eq_eq_eq_not, Bool.not_true, decide_eq_false_iff_not] at hkeep
      exact hkeep htok
    · have : now1 = rt.iat := by
        have := congrArg RefreshTok.iat hnew.symm
        simpa using this
      omega
  refine ⟨by rw [hstep], hfind2, hnot, ?_, ?_⟩
  · simp [User.removeRefreshToken, User.addRefreshToken]
  · generalize hgen : (AuthService.refreshToken store rt now1).1 = s1 at hfind2 ⊢
    simp [AuthService.refreshToken, verifyRefreshTok, hlive2, hfind2,
      find?_token_none hnot]

/-- Claim C1 witness: the rotation theorem applied to a user holding the
stored token `⟨"u1", 5⟩`, with the two calls at times 10 and 20. -/
theorem refresh_rotation_single_use_witness :
    (AuthService.refreshToken [uTok] ⟨"u1", 5⟩ 10).2 = .ok (generateTokenPair uTok 10) ∧
    findById (AuthService.refreshToken [uTok] ⟨"u1", 5⟩ 10).1 (RefreshTok.mk "u1" 5).id =
      some ((uTok.removeRefreshToken ⟨"u1", 5⟩).addRefreshToken
        (generateTokenPair uTok 10).refreshToken 10) ∧
    (⟨"u1", 5⟩ : RefreshTok) ∉ ((uTok.removeRefreshToken ⟨"u1", 5⟩).addRefreshToken
        (generateTokenPair uTok 10).refreshToken 10).refreshTokens.map RefreshRecord.token ∧
    (generateTokenPair uTok 10).refreshToken ∈
      ((uTok.removeRefreshToken ⟨"u1", 5⟩).addRefreshToken
        (generateTokenPair uTok 10).refreshToken 10).refreshTokens.map RefreshRecord.token ∧
    (AuthService.refreshToken (AuthService.refreshToken [uTok] ⟨"u1", 5⟩ 10).1
        ⟨"u1", 5⟩ 20).2 = .error (.authError "Invalid refresh token") :=
  refresh_rotation_single_use [uTok] uTok ⟨"u1", 5⟩ 10 20 rfl (by decide) (by decide)
    (by decide) (by decide)

/-- Claim C2: brute-force lockout.  Starting from an active account with a
zero attempt counter and no lock, each of five wrong-password logins fails
with `AuthError` and increments the counter; the fifth sets
`lockUntil = t5 + 2h`.  While the lock is in the future, a login with the
correct password fails with the locked `AuthError`; once the expiry has
elapsed, the correct password logs in successfully. -/
theorem login_lockout_after_five_failures
    (u : User) (e w p : String) (t1 t2 t3 t4 t5 : Nat)
    (he : u.email = e.toLower) (ha : u.isActive = true)
    (h0 : u.loginAttempts = 0) (hl : u.lockUntil = none)
    (hw : w ≠ u.password) (hp : p = u.password) :
    AuthService.login [u] e w t1 =
      ([{ u with loginAttempts := 1 }], .error (.authError "Invalid email or password")) ∧
    AuthService.login [{ u with loginAttempts := 1 }] e w t2 =
      ([{ u with loginAttempts := 2 }], .error (.authError "Invalid email or password")) ∧
    AuthService.login [{ u with loginAttempts := 2 }] e w t3 =
      ([{ u with loginAttempts := 3 }], .error (.authError "Invalid email or password")) ∧
    AuthService.login [{ u with loginAttempts := 3 }] e w t4 =
      ([{ u with loginAttempts := 4 }], .error (.authError "Invalid email or password")) ∧
    AuthService.login [{ u with loginAttempts := 4 }] e w t5 =
      ([{ u with loginAttempts := 5, lockUntil := some (t5 + lockTimeMs) }],
       .error (.authError "Invalid email or password")) ∧
    (∀ t6, t6 < t5 + lockTimeMs →
      AuthService.login
          [{ u with loginAttempts := 5, lockUntil := some (t5 + lockTimeMs) }] e p t6 =
        ([{ u with loginAttempts := 5, lockUntil := some (t5 + lockTimeMs) }],
         .error (.authError "Account is temporarily locked. Please try again later"))) ∧
    (∀ t7, t5 + lockTimeMs ≤ t7 →
      ∃ r, (AuthService.login
          [{ u with loginAttempts := 5, lockUntil := some (t5 + lockTimeMs) }] e p t7).2 =
        .ok r) := by
  refine ⟨?_, ?_, ?_, ?_, ?_, ?_, ?_⟩
  · simp [AuthService.login, findByEmail, he, ha, User.isLocked, hl,
      User.comparePassword, hw, User.incLoginAttempts, User.hasExpiredLock, h0,
      maxLoginAttempts, updateById]
  · simp [AuthService.login, findByEmail, he, ha, User.isLocked, hl,
      User.comparePassword, hw, User.incLoginAttempts, User.hasExpiredLock,
      maxLoginAttempts, updateById]
  · simp [AuthService.login, findByEmail, he, ha, User.isLocked, hl,
      User.comparePassword, hw, User.incLoginAttempts, User.hasExpiredLock,
      maxLoginAttempts, updateById]
  · simp [AuthService.login, findByEmail, he, ha, User.isLocked, hl,
      User.comparePassword, hw, User.incLoginAttempts, User.hasExpiredLock,
      maxLoginAttempts, updateById]
  · simp [AuthService.login, findByEmail, he, ha, User.isLocked, hl,
      User.comparePassword, hw, User.incLoginAttempts, User.hasExpiredLock,
      maxLoginAttempts, updateById]
  · intro t6 h6
    simp [AuthService.login, findByEmail, he, User.isLocked, h6]
  · intro t7 h7
    have hnl : decide (t7 < t5 + lockTimeMs) = false := by
      simp only [decide_eq_false_iff_not]
      omega
    simp [AuthService.login, findByEmail, he, ha, User.isLocked, hnl,
      User.comparePassword, hp, User.resetLoginAttempts, User.addRefreshToken,
      updateById]

/-- Claim C2 witness: the lockout theorem run on a concrete fresh account —
five wrong passwords at times 1–5, a locked correct-password attempt at
time 100, and a successful correct-password login at the expiry instant. -/
theorem login_lockout_after_five_failures_witness :
    AuthService.login [uFresh] "e@x" "bad" 1 =
      ([{ uFresh with loginAttempts := 1 }],
       .error (.authError "Invalid email or password")) ∧
    AuthService.login [{ uFresh with loginAttempts := 4 }] "e@x" "bad" 5 =
      ([{ uFresh with loginAttempts := 5, lockUntil := some (5 + lockTimeMs) }],
       .error (.authError "Invalid email or password")) ∧
    AuthService.login
        [{ uFresh with loginAttempts := 5, lockUntil := some (5 + lockTimeMs) }]
        "e@x" "pw" 100 =
      ([{ uFresh with loginAttempts := 5, lockUntil := some (5 + lockTimeMs) }],
       .error (.authError "Account is temporarily locked. Please try again later")) ∧
    (∃ r, (AuthService.login
        [{ uFresh with loginAttempts := 5, lockUntil := some (5 + lockTimeMs) }]
        "e@x" "pw" (5 + lockTimeMs)).2 = .ok r) := by
  have h := login_lockout_after_five_failures uFresh "e@x" "bad" "pw" 1 2 3 4 5
    rfl rfl rfl rfl (by decide) (by decide)
  exact ⟨h.1, h.2.2.2.2.1, h.2.2.2.2.2.1 100 (by decide), h.2.2.2.2.2.2 (5 + lockTimeMs) le_rfl⟩

/-- Claim C3: a successful password change empties the user's refresh-token
list and bumps `passwordChangedAt` to `now`; afterwards every access token
issued before the change (`iat < now`, so stale relative to the new
`passwordChangedAt`) is rejected by request authentication with the 401
"Password recently changed" error even while unexpired (given the account is
active and unlocked at authentication time). -/
theorem changePassword_invalidates_tokens
    (store : List User) (u : User) (uid newPw : String) (now : Nat)
    (hfind : findById store uid = some u)
    (hnew : newPw ≠ u.password)
    (hbump : u.passwordChangedAt < now) :
    AuthService.changePassword store uid u.password newPw now =
      (updateById store u.id
        { u with password := newPw, passwordChangedAt := now, refreshTokens := [] },
       .ok { u with password := newPw, passwordChangedAt := now, refreshTokens := [] }) ∧
    ({ u with password := newPw, passwordChangedAt := now, refreshTokens := [] } : User).refreshTokens = [] ∧
    u.passwordChangedAt <
      ({ u with password := newPw, passwordChangedAt := now, refreshTokens := [] } : User).passwordChangedAt ∧
    (∀ (tok : AccessToken) (now' : Nat),
      tok.id = uid → tok.iat < now → now' < tok.iat + accessExpiresMs →
      u.isActive = true → u.isLocked now' = false →
      authenticate
        (updateById store u.id
          { u with password := newPw, passwordChangedAt := now, refreshTokens := [] })
        tok now' =
        .error (.appError "Password recently changed. Please log in again" 401)) := by
  have hid : u.id = uid := by
    have := List.find?_some hfind
    simpa using this
  refine ⟨?_, rfl, hbump, ?_⟩
  · simp [AuthService.changePassword, hfind, User.comparePassword, hnew]
  · intro tok now' htid hiat hexp hact hlock
    have hsome : (findById store u.id).isSome := by
      rw [hid, hfind]; rfl
    have hf2 : findById
        (updateById store u.id
          { u with password := newPw, passwordChangedAt := now, refreshTokens := [] })
        tok.id =
        some { u with password := newPw, passwordChangedAt := now, refreshTokens := [] } := by
      rw [htid, ← hid]
      exact findById_updateById hsome rfl
    have hlock' : ({ u with password := newPw, passwordChangedAt := now, refreshTokens := [] } : User).isLocked now' = false := by
      simpa [User.isLocked] using hlock
    simp only [hact] at hf2 hlock'
    simp [authenticate, verifyAccessTok, hexp, hf2, hact, hlock', hiat]

/-- Claim C3 witness: the change-password theorem instantiated on a concrete
user holding one refresh token, with a pre-change access token (issued at 20,
change at 50) authenticated at time 60. -/
theorem changePassword_invalidates_tokens_witness :
    AuthService.changePassword [uChg] "u3" "pw" "pw2" 50 =
      (updateById [uChg] uChg.id
        { uChg with password := "pw2", passwordChangedAt := 50, refreshTokens := [] },
       .ok { uChg with password := "pw2", passwordChangedAt := 50, refreshTokens := [] }) ∧
    ({ uChg with password := "pw2", passwordChangedAt := 50, refreshTokens := [] } : User).refreshTokens = [] ∧
    authenticate
      (updateById [uChg] uChg.id
        { uChg with password := "pw2", passwordChangedAt := 50, refreshTokens := [] })
      ⟨"u3", "e@x", "user", 20⟩ 60 =
      .error (.appError "Password recently changed. Please log in again" 401) := by
  have h := changePassword_invalidates_tokens [uChg] uChg "u3" "pw2" 50
    rfl (by decide) (by decide)
  exact ⟨h.1, h.2.1, h.2.2.2 ⟨"u3", "e@x", "user", 20⟩ 60 rfl (by decide) (by decide) rfl rfl⟩

/-- Claim C6: the leaderboard is at most `limit` long, sorted descending by
total amount, and every entry is the per-donor-email aggregate (sum, count,
most-recent date) over the completed, non-anonymous donations of some donor
present in the store — anonymous or incomplete donations never contribute a
row.  The spec's concrete example evaluates as stated: of A completed $50,
B pending $100, C completed-but-anonymous $30, only A appears. -/
theorem leaderboard_completed_nonanonymous_sorted :
    (∀ (ds : List Donation) (limit : Nat),
      (getLeaderboard ds limit).length ≤ limit ∧
      List.Sorted lbRel (getLeaderboard ds limit) ∧
      (∀ e ∈ getLeaderboard ds limit,
        (∃ d ∈ ds, d.status = DStatus.completed ∧ d.isAnonymous = false ∧
          d.donorEmail = e.donorEmail) ∧
        e = entryFor (completedPublic ds) e.donorEmail)) ∧
    getLeaderboard
      [⟨"A", "a@x", 50, false, .completed, 10⟩,
       ⟨"B", "b@x", 100, false, .pending, 11⟩,
       ⟨"C", "c@x", 30, true, .completed, 12⟩] 10 =
      [⟨"a@x", "A", 50, 1, 10⟩] := by
  constructor
  · intro ds limit
    refine ⟨?_, ?_, ?_⟩
    · simp [getLeaderboard]
    · exact (List.sorted_insertionSort lbRel _).sublist (List.take_sublist _ _)
    · intro e he
      have h1 : e ∈ List.insertionSort lbRel
          (((completedPublic ds).map (·.donorEmail)).dedup.map
            (entryFor (completedPublic ds))) :=
        List.mem_of_mem_take he
      have h2 : e ∈ ((completedPublic ds).map (·.donorEmail)).dedup.map
          (entryFor (completedPublic ds)) :=
        (List.mem_insertionSort lbRel).1 h1
      obtain ⟨em, hem, rfl⟩ := List.mem_map.1 h2
      have hem' : em ∈ (completedPublic ds).map (·.donorEmail) := List.mem_dedup.1 hem
      obtain ⟨d, hd, hde⟩ := List.mem_map.1 hem'
      have hd' : d ∈ ds ∧ (d.status.isCompleted && !d.isAnonymous) = true :=
        List.mem_filter.1 hd
      have hstat : d.status = DStatus.completed := by
        have h := hd'.2
        cases hs : d.status <;> simp_all [DStatus.isCompleted]
      have hanon : d.isAnonymous = false := by
        have h := hd'.2
        simp_all
      exact ⟨⟨d, hd'.1, hstat, hanon, hde⟩, rfl⟩
  · simp [getLeaderboard, completedPublic, entryFor, donationsOf, DStatus.isCompleted,
      List.insertionSort, List.dedup, List.filter, List.pwFilter]

/-- Claim C8: `getStats` over a store with no completed donations returns the
zero-filled record — the aggregation's empty result falls back to zeros and
the call never fails on empty data (it is total). -/
theorem stats_zero_when_no_completed
    (ds : List Donation) (h : ∀ d ∈ ds, d.status ≠ DStatus.completed) :
    getStats ds = ⟨0, 0, 0, 0, 0⟩ := by
  have hf : ds.filter (fun d => d.status.isCompleted) = [] :=
    List.filter_eq_nil_iff.2 fun d hd hc =>
      h d hd ((DStatus.isCompleted_iff d.status).1 hc)
  simp [getStats, hf]

/-- Claim C8 witness: a store holding only a pending donation yields the
zero-filled stats record. -/
theorem stats_zero_when_no_completed_witness :
    getStats [⟨"B", "b@x", 100, false, .pending, 11⟩] = ⟨0, 0, 0, 0, 0⟩ :=
  stats_zero_when_no_completed [⟨"B", "b@x", 100, false, .pending, 11⟩] (by decide)

/-- Claim C9: rating stats are computed over approved-and-visible testimonials
only — a testimonial that is unapproved or invisible never changes the result
— and on approved+visible ratings [5,5,4,3] (plus an unapproved rating-1
testimonial that is ignored) the result is 4 reviews, average 4.25, and star
counts 5:2, 4:1, 3:1, 2:0, 1:0. -/
theorem rating_stats_approved_visible_only :
    (∀ (ts : List Testimonial) (t : Testimonial),
      (t.isApproved && t.isVisible) = false →
      getRatingStats (t :: ts) = getRatingStats ts) ∧
    getRatingStats
      [⟨"t1", "N", 5, true, false, true⟩, ⟨"t2", "N", 5, true, false, true⟩,
       ⟨"t3", "N", 4, true, false, true⟩, ⟨"t4", "N", 3, true, false, true⟩,
       ⟨"t5", "N", 1, false, false, true⟩] =
      ⟨4, 4.25, 2, 1, 1, 0, 0⟩ := by
  constructor
  · intro ts t ht
    have hav : approvedVisible (t :: ts) = approvedVisible ts := by
      simp [approvedVisible, List.filter_cons, ht]
    simp only [getRatingStats, hav]
  · norm_num [getRatingStats, approvedVisible, countRating, round2, roundHalfEven,
      List.filter, RatingStats.mk.injEq]

end EasyBuckets
